import Mathlib

/-!
Verification development for the fabric deployment script (fabfile.py) of the
luke repository.  The tasks of the fabfile are embedded shallowly: each task is
a Lean function that, given the run configuration and the values captured from
the local git queries, produces the ordered list of shell actions the task
issues.  Error propagation of the transport (every non-zero exit aborts the
run) is modelled by an executor that consumes the action list against an
oracle assigning a success bit to each action.
-/

namespace Fabfile

/-- One shell action issued by a task.  `localRun` is a local command
(`ulocal`), `remoteRun` is a command executed on the remote host inside the
activated environment (`run`), `uRun` is a command issued through `urun`, and
`rsync` is a call to `ursync_project` with its local directory, remote
directory, delete flag and exclude patterns. -/
inductive Step where
  | localRun (cmd : String) : Step
  | remoteRun (cmd : String) : Step
  | uRun (cmd : String) : Step
  | rsync (local_dir remote_dir : String) (delete : Bool) (exclude : List String) : Step
deriving DecidableEq, Repr

/-- The run configuration: the keys of the selected environment that the
deployment tasks `require`, as loaded by `environment` from
environments.json. -/
structure Config where
  hosts : List String
  user : String
  group : String
  site_dir : String
  django_settings : String
  maintenance_dir : String
  env_name : String
deriving DecidableEq, Repr

/-- The `project_conf` dictionary at the top of fabfile.py: the project name
and the two tool capability flags. -/
structure ProjectConf where
  name : String
  stylus : Bool
  bower : Bool
deriving DecidableEq, Repr

/-- `project_conf = { name: luke, tools: { stylus: True, bower: False } }`. -/
def project_conf : ProjectConf :=
  { name := "luke", stylus := true, bower := false }

/-- A Python value passed as the `upgrade` keyword argument: through the fab
command line it arrives as a string, from Python callers it is a bool. -/
inductive PyVal where
  | bool (b : Bool) : PyVal
  | str (s : String) : PyVal
deriving DecidableEq, Repr

/-- Python truthiness of such a value: a bool is itself, a string is truthy
iff it is non-empty. -/
def truthy : PyVal → Bool
  | .bool b => b
  | .str s => decide (s ≠ "")

/-- ASCII lowercasing of one character. -/
def lowerChar (c : Char) : Char :=
  if 65 ≤ c.toNat ∧ c.toNat ≤ 90 then Char.ofNat (c.toNat + 32) else c

/-- ASCII lowercasing of a string. -/
def lowerString (s : String) : String := String.mk (s.data.map lowerChar)

/-- Modelled from the spec: `fabutils.utils.boolean` is not under src/; the
spec describes the maintenance argument as parsed as a boolean-like token
(the CLI surface uses `maintenance:on` / `maintenance:off`).  The parser
recognises the usual affirmative tokens case-insensitively and maps every
other string to false. -/
def boolean (s : String) : Bool :=
  ["true", "t", "yes", "y", "1", "on"].contains (lowerString s)

/-- Modelled from the spec: `ursync_project` (fabutils.tasks) is not under
src/; per the spec it is a one-way synchronization that deletes remote files
absent locally, while excluded patterns are neither transferred nor deleted.
The remote file set after the sync is therefore the non-excluded local files
together with the excluded remote files. -/
def rsync_result (localFiles remoteFiles : List String) (excluded : String → Bool) :
    List String :=
  localFiles.filter (fun f => ! excluded f) ++ remoteFiles.filter (fun f => excluded f)

/-- Split a character list at every slash. -/
def splitSlash (cs : List Char) : List (List Char) :=
  match cs with
  | [] => [[]]
  | c :: rest =>
    match splitSlash rest with
    | [] => [[]]
    | g :: gs => if c = '/' then [] :: g :: gs else (c :: g) :: gs

/-- Path components of a slash-separated path. -/
def components (path : String) : List (List Char) := splitSlash path.data

/-- Modelled from the spec: matching of one rsync exclude pattern against a
path.  A pattern ending in a slash names a directory component, a pattern
starting with a star matches by suffix, and a bare name matches a path
component. -/
def matchOne (pat path : String) : Bool :=
  if pat.data.getLast? = some '/' then (components path).contains pat.data.dropLast
  else if pat.data.head? = some '*' then List.isSuffixOf (pat.data.drop 1) path.data
  else (components path).contains pat.data

/-- A path matches the exclude list iff it matches some pattern in it. -/
def matchesExclude (pats : List String) (path : String) : Bool :=
  pats.any (fun p => matchOne p path)

/-- The exclude list passed by `deploy` to `ursync_project`. -/
def deploy_exclude : List String :=
  ["*.pyc", "env/", "cover/", "*.style", "bower_components"]

/-- The temporary snapshot directory `deploy` derives from the repository
name and the short commit hash. -/
def tmp_dir (repo commit : String) : String :=
  "/tmp/blob-" ++ repo ++ "-" ++ commit ++ "/"

/-- The requirements file name chosen by `install_requirements`: the
environment name, except that the vagrant environment uses the devel file. -/
def requirements_name (cfg : Config) : String :=
  if cfg.env_name ≠ "vagrant" then cfg.env_name else "devel"

/-- The requirements file path of `install_requirements`
(`os.path.join(site_dir, requirements, name.txt)`; `os.path.realpath`
is modelled as the joined path itself). -/
def requirements_path (cfg : Config) : String :=
  cfg.site_dir ++ "/requirements/" ++ requirements_name cfg ++ ".txt"

/-- The pip command issued by `install_requirements`: the format string
inserts U exactly when the `upgrade` argument is truthy in the Python sense. -/
def install_requirements_cmd (cfg : Config) (upgrade : PyVal) : String :=
  "pip install -" ++ (if truthy upgrade then "U" else "") ++ "r " ++ requirements_path cfg

/-- The migrate command as invoked by `deploy` (`migrate(noinput=True)`);
the fabutils helpers `join` and `options` are not under src/ and are modelled
from the spec: the migration is applied non-interactively, so the option
renders as a `--noinput` flag. -/
def migrate_cmd (noinput : Bool) : String :=
  "python manage.py migrate" ++ (if noinput then " --noinput" else "")

/-- The opbeat command issued by `register_deployment` for a commit and
branch. -/
def register_deployment_cmd (commit branch : String) : String :=
  "opbeat -o $OPBEAT_ORGANIZATION_ID " ++
  "-a $OPBEAT_APP_ID " ++
  "-t $OPBEAT_SECRET_TOKEN deployment " ++
  "--component path:. vcs:git rev:" ++ commit ++ " branch:" ++ branch ++ " "

/-- The `maintenance` task: if the state token parses as true it mirrors the
local maintenance directory to the remote maintenance path (with delete, no
excludes) and sets group ownership there; otherwise it recursively deletes
the contents of the remote maintenance directory. -/
def maintenance (cfg : Config) (state : String) : List Step :=
  if boolean state then
    [Step.rsync "./maintenance/" cfg.maintenance_dir true [],
     Step.remoteRun ("chgrp -R " ++ cfg.group ++ " .")]
  else
    [Step.remoteRun "rm -rf ./*"]

/-- Effect of the `maintenance` task on the remote maintenance directory,
seen as the set of files it holds; `localMaint` is the content of the local
maintenance page directory.  Built on the spec-modelled `rsync_result`. -/
def maintenance_effect (localMaint : List String) (state : String)
    (remoteMaint : List String) : List String :=
  if boolean state then rsync_result localMaint remoteMaint (fun _ => false)
  else []

/-- The `deploy` task as the ordered list of actions it issues.  `repo`,
`commit` and `branch` are the values captured by the three local git queries;
`upgrade` is the keyword argument passed through to
`install_requirements`. -/
def deploy (cfg : Config) (git_ref repo commit branch : String) (upgrade : PyVal) :
    List Step :=
  -- snapshot phase: git metadata queries, then clean temp dir and archive
  [Step.localRun "basename `git rev-parse --show-toplevel`",
   Step.localRun ("git rev-parse --short " ++ git_ref),
   Step.localRun "git rev-parse --abbrev-ref HEAD",
   Step.localRun ("rm -fr " ++ tmp_dir repo commit),
   Step.localRun ("mkdir " ++ tmp_dir repo commit),
   Step.localRun ("git archive " ++ commit ++ " ./src | tar -xC " ++
     tmp_dir repo commit ++ " --strip 1")]
  -- maintenance mode on
  ++ maintenance cfg "on"
  -- upload of the snapshot to the site directory
  ++ [Step.rsync (tmp_dir repo commit) cfg.site_dir true deploy_exclude]
  -- provisioning pipeline
  ++ [Step.remoteRun (install_requirements_cmd cfg upgrade),
      Step.remoteRun (migrate_cmd true),
      Step.remoteRun "bower install",
      Step.remoteRun "python manage.py collectstatic --noinput",
      Step.remoteRun ("chgrp -R " ++ cfg.group ++ " ."),
      Step.remoteRun ("chgrp -R " ++ cfg.group ++ " ../media"),
      Step.remoteRun "touch ../reload",
      Step.remoteRun ("sudo /usr/bin/supervisorctl restart " ++ cfg.user ++ "-celeryd"),
      Step.remoteRun (register_deployment_cmd commit branch)]
  -- maintenance mode off
  ++ maintenance cfg "off"
  -- cleanup of the local snapshot
  ++ [Step.localRun ("rm -fr " ++ tmp_dir repo commit)]

/-- The `bootstrap` task, parameterised by the project configuration it
reads: createdb, migrate, bower install gated by the bower capability flag,
collectstatic. -/
def bootstrap (conf : ProjectConf) : List Step :=
  [Step.uRun ("createdb " ++ conf.name ++ " -l en_US.UTF-8 -E UTF8 -T template0"),
   Step.remoteRun (migrate_cmd false)]
  ++ (if conf.bower then [Step.remoteRun "bower install"] else [])
  ++ [Step.remoteRun "python manage.py collectstatic --noinput"]

/-- The transport: actions run strictly in order, each one consulting the
oracle for its exit status; the first failure aborts the run.  Returns the
actions that were actually issued and whether the run completed. -/
def execute (oracle : Step → Bool) : List Step → List Step × Bool
  | [] => ([], true)
  | s :: rest =>
    if oracle s then ((execute oracle rest).1.cons s, (execute oracle rest).2)
    else ([s], false)

/-- A concrete run configuration used to instantiate closed statements:
hosts = [host1], user/group luke, the production environment. -/
def cfgDemo : Config :=
  { hosts := ["host1"], user := "luke", group := "luke",
    site_dir := "/srv/luke/site", django_settings := "luke.settings.production",
    maintenance_dir := "/srv/luke/maintenance", env_name := "production" }

/-- The action trace of `deploy` on the demo configuration, for the reference
v1.2.0 resolving to commit abc1234 on branch main, without requirement
upgrades. -/
def deployDemo : List Step := deploy cfgDemo "v1.2.0" "luke" "abc1234" "main" (.bool false)

/-- The oracle in which exactly the migrate command of the deploy pipeline
fails. -/
def oracleDemo : Step → Bool := fun s => ! (s == Step.remoteRun (migrate_cmd true))

theorem maintenance_on_eq (cfg : Config) :
    maintenance cfg "on" =
      [Step.rsync "./maintenance/" cfg.maintenance_dir true [],
       Step.remoteRun ("chgrp -R " ++ cfg.group ++ " .")] := by
  have h : boolean "on" = true := by decide
  simp [maintenance, h]

theorem maintenance_off_eq (cfg : Config) :
    maintenance cfg "off" = [Step.remoteRun "rm -rf ./*"] := by
  have h : boolean "off" = false := by decide
  simp [maintenance, h]

/-- The deploy trace, written as ten actions, then the migrate action, then
the nine remaining actions (the split used by the abort lemma). -/
theorem deploy_split (cfg : Config) (gr r c b : String) (u : PyVal) :
    deploy cfg gr r c b u =
      [Step.localRun "basename `git rev-parse --show-toplevel`",
       Step.localRun ("git rev-parse --short " ++ gr),
       Step.localRun "git rev-parse --abbrev-ref HEAD",
       Step.localRun ("rm -fr " ++ tmp_dir r c),
       Step.localRun ("mkdir " ++ tmp_dir r c),
       Step.localRun ("git archive " ++ c ++ " ./src | tar -xC " ++
         tmp_dir r c ++ " --strip 1"),
       Step.rsync "./maintenance/" cfg.maintenance_dir true [],
       Step.remoteRun ("chgrp -R " ++ cfg.group ++ " ."),
       Step.rsync (tmp_dir r c) cfg.site_dir true deploy_exclude,
       Step.remoteRun (install_requirements_cmd cfg u)]
      ++ Step.remoteRun (migrate_cmd true) ::
      [Step.remoteRun "bower install",
       Step.remoteRun "python manage.py collectstatic --noinput",
       Step.remoteRun ("chgrp -R " ++ cfg.group ++ " ."),
       Step.remoteRun ("chgrp -R " ++ cfg.group ++ " ../media"),
       Step.remoteRun "touch ../reload",
       Step.remoteRun ("sudo /usr/bin/supervisorctl restart " ++ cfg.user ++ "-celeryd"),
       Step.remoteRun (register_deployment_cmd c b),
       Step.remoteRun "rm -rf ./*",
       Step.localRun ("rm -fr " ++ tmp_dir r c)] := by
  simp [deploy, maintenance_on_eq, maintenance_off_eq]

theorem execute_all_ok (l : List Step) : execute (fun _ => true) l = (l, true) := by
  induction l with
  | nil => rfl
  | cons a t ih => simp [execute, ih]

/-- If some action in the list fails under the oracle, the run does not
complete and at most the actions up to and including the first such failure
are issued. -/
theorem execute_abort (oracle : Step → Bool) (s : Step) (h : oracle s = false)
    (l1 l2 : List Step) :
    (execute oracle (l1 ++ s :: l2)).2 = false ∧
    (execute oracle (l1 ++ s :: l2)).1.length ≤ l1.length + 1 := by
  induction l1 with
  | nil => simp [execute, h]
  | cons a t ih =>
    by_cases ha : oracle a = true
    · refine ⟨?_, ?_⟩
      · simp [execute, ha, ih.1]
      · simp only [List.cons_append, execute, ha, if_true, List.length_cons]
        exact Nat.succ_le_succ ih.2
    · refine ⟨?_, ?_⟩
      · simp [execute, ha]
      · simp [execute, ha]

/-- C1, counterexample: the claim states that the upload of the code to the
remote site directory happens before maintenance mode is enabled.  In the
deploy trace on a concrete run, the maintenance-on synchronization (which
occurs exactly once) sits strictly before the upload synchronization (which
also occurs exactly once), so the claimed order is false. -/
theorem C1_counterexample :
    deployDemo.count (Step.rsync "./maintenance/" cfgDemo.maintenance_dir true []) = 1 ∧
    deployDemo.count
      (Step.rsync (tmp_dir "luke" "abc1234") cfgDemo.site_dir true deploy_exclude) = 1 ∧
    deployDemo.indexOf (Step.rsync "./maintenance/" cfgDemo.maintenance_dir true []) <
      deployDemo.indexOf
        (Step.rsync (tmp_dir "luke" "abc1234") cfgDemo.site_dir true deploy_exclude) := by
  refine ⟨by decide, by decide, by decide⟩

/-- C1, amended: the deploy task executes its phases in the fixed order
snapshot creation, then enabling maintenance mode, then upload of the code to
the remote site directory, then the provisioning pipeline, then disabling
maintenance mode, then cleanup of the local temporary directory.  The phases
are located by their characteristic actions at fixed positions of the
20-action trace. -/
theorem C1_deploy_phase_order (cfg : Config) (gr r c b : String) (u : PyVal) :
    (deploy cfg gr r c b u).length = 20 ∧
    (deploy cfg gr r c b u).get? 5 =
      some (Step.localRun ("git archive " ++ c ++ " ./src | tar -xC " ++
        tmp_dir r c ++ " --strip 1")) ∧
    (deploy cfg gr r c b u).get? 6 =
      some (Step.rsync "./maintenance/" cfg.maintenance_dir true []) ∧
    (deploy cfg gr r c b u).get? 8 =
      some (Step.rsync (tmp_dir r c) cfg.site_dir true deploy_exclude) ∧
    (deploy cfg gr r c b u).get? 9 =
      some (Step.remoteRun (install_requirements_cmd cfg u)) ∧
    (deploy cfg gr r c b u).get? 17 =
      some (Step.remoteRun (register_deployment_cmd c b)) ∧
    (deploy cfg gr r c b u).get? 18 = some (Step.remoteRun "rm -rf ./*") ∧
    (deploy cfg gr r c b u).get? 19 =
      some (Step.localRun ("rm -fr " ++ tmp_dir r c)) := by
  refine ⟨?_, ?_, ?_, ?_, ?_, ?_, ?_, ?_⟩ <;>
    simp [deploy_split]

/-- C2: within the provisioning pipeline of deploy the step order is fixed:
requirements installation (position 9) precedes database migration (10),
migration precedes static collection (12), static collection precedes the
recursive group-permission setting (13 and 14), permission setting precedes
the webserver reload (15) and worker restart (16), and both restarts precede
the deployment registration (17). -/
theorem C2_provision_order (cfg : Config) (gr r c b : String) (u : PyVal) :
    (deploy cfg gr r c b u).get? 9 =
      some (Step.remoteRun (install_requirements_cmd cfg u)) ∧
    (deploy cfg gr r c b u).get? 10 = some (Step.remoteRun (migrate_cmd true)) ∧
    (deploy cfg gr r c b u).get? 12 =
      some (Step.remoteRun "python manage.py collectstatic --noinput") ∧
    (deploy cfg gr r c b u).get? 13 =
      some (Step.remoteRun ("chgrp -R " ++ cfg.group ++ " .")) ∧
    (deploy cfg gr r c b u).get? 14 =
      some (Step.remoteRun ("chgrp -R " ++ cfg.group ++ " ../media")) ∧
    (deploy cfg gr r c b u).get? 15 = some (Step.remoteRun "touch ../reload") ∧
    (deploy cfg gr r c b u).get? 16 =
      some (Step.remoteRun ("sudo /usr/bin/supervisorctl restart " ++
        cfg.user ++ "-celeryd")) ∧
    (deploy cfg gr r c b u).get? 17 =
      some (Step.remoteRun (register_deployment_cmd c b)) := by
  refine ⟨?_, ?_, ?_, ?_, ?_, ?_, ?_, ?_⟩ <;>
    simp [deploy_split]

/-- C3: a failure of the migration command aborts the run: the executed
trace stops no later than position 10 (so at most 11 actions are issued),
while static collection sits at position 12, the maintenance-off delete at
position 18 and the removal of the temporary snapshot directory at position
19 of the full trace — none of them is ever issued, so maintenance mode
remains on and the temporary directory is not removed. -/
theorem C3_migration_failure_aborts (cfg : Config) (gr r c b : String) (u : PyVal)
    (oracle : Step → Bool) (h : oracle (Step.remoteRun (migrate_cmd true)) = false) :
    (execute oracle (deploy cfg gr r c b u)).2 = false ∧
    (execute oracle (deploy cfg gr r c b u)).1.length ≤ 11 ∧
    (∀ k, 11 ≤ k → (execute oracle (deploy cfg gr r c b u)).1.get? k = none) ∧
    (deploy cfg gr r c b u).get? 12 =
      some (Step.remoteRun "python manage.py collectstatic --noinput") ∧
    (deploy cfg gr r c b u).get? 18 = some (Step.remoteRun "rm -rf ./*") ∧
    (deploy cfg gr r c b u).get? 19 =
      some (Step.localRun ("rm -fr " ++ tmp_dir r c)) := by
  rw [deploy_split]
  obtain ⟨hfail, hlen⟩ := execute_abort oracle (Step.remoteRun (migrate_cmd true)) h
    [Step.localRun "basename `git rev-parse --show-toplevel`",
     Step.localRun ("git rev-parse --short " ++ gr),
     Step.localRun "git rev-parse --abbrev-ref HEAD",
     Step.localRun ("rm -fr " ++ tmp_dir r c),
     Step.localRun ("mkdir " ++ tmp_dir r c),
     Step.localRun ("git archive " ++ c ++ " ./src | tar -xC " ++
       tmp_dir r c ++ " --strip 1"),
     Step.rsync "./maintenance/" cfg.maintenance_dir true [],
     Step.remoteRun ("chgrp -R " ++ cfg.group ++ " ."),
     Step.rsync (tmp_dir r c) cfg.site_dir true deploy_exclude,
     Step.remoteRun (install_requirements_cmd cfg u)]
    [Step.remoteRun "bower install",
     Step.remoteRun "python manage.py collectstatic --noinput",
     Step.remoteRun ("chgrp -R " ++ cfg.group ++ " ."),
     Step.remoteRun ("chgrp -R " ++ cfg.group ++ " ../media"),
     Step.remoteRun "touch ../reload",
     Step.remoteRun ("sudo /usr/bin/supervisorctl restart " ++ cfg.user ++ "-celeryd"),
     Step.remoteRun (register_deployment_cmd c b),
     Step.remoteRun "rm -rf ./*",
     Step.localRun ("rm -fr " ++ tmp_dir r c)]
  refine ⟨hfail, by simpa using hlen, ?_, by simp, by simp, by simp⟩
  intro k hk
  exact List.get?_eq_none.mpr (le_trans (by simpa using hlen) hk)

/-- C3 witness: the abort theorem applied to the oracle in which exactly the
migrate command fails, on the demo run. -/
theorem C3_witness :
    oracleDemo (Step.remoteRun (migrate_cmd true)) = false ∧
    ((execute oracleDemo (deploy cfgDemo "v1.2.0" "luke" "abc1234" "main" (.bool false))).2 = false ∧
     (execute oracleDemo (deploy cfgDemo "v1.2.0" "luke" "abc1234" "main" (.bool false))).1.length ≤ 11 ∧
     (∀ k, 11 ≤ k →
       (execute oracleDemo (deploy cfgDemo "v1.2.0" "luke" "abc1234" "main" (.bool false))).1.get? k = none) ∧
     (deploy cfgDemo "v1.2.0" "luke" "abc1234" "main" (.bool false)).get? 12 =
       some (Step.remoteRun "python manage.py collectstatic --noinput") ∧
     (deploy cfgDemo "v1.2.0" "luke" "abc1234" "main" (.bool false)).get? 18 =
       some (Step.remoteRun "rm -rf ./*") ∧
     (deploy cfgDemo "v1.2.0" "luke" "abc1234" "main" (.bool false)).get? 19 =
       some (Step.localRun ("rm -fr " ++ tmp_dir "luke" "abc1234"))) :=
  ⟨by decide,
   C3_migration_failure_aborts cfgDemo "v1.2.0" "luke" "abc1234" "main" (.bool false)
     oracleDemo (by decide)⟩

/-- C4: the snapshot directory name is the deterministic function of the
repository name and short commit hash /tmp/blob-repo-commit/, any
pre-existing directory of that name is removed (position 3) before the
directory is recreated (position 4), and only the src subtree of the archive
is extracted into it with one leading path component stripped (position 5). -/
theorem C4_snapshot (cfg : Config) (gr r c b : String) (u : PyVal) :
    tmp_dir r c = "/tmp/blob-" ++ r ++ "-" ++ c ++ "/" ∧
    (deploy cfg gr r c b u).get? 3 =
      some (Step.localRun ("rm -fr " ++ tmp_dir r c)) ∧
    (deploy cfg gr r c b u).get? 4 =
      some (Step.localRun ("mkdir " ++ tmp_dir r c)) ∧
    (deploy cfg gr r c b u).get? 5 =
      some (Step.localRun ("git archive " ++ c ++ " ./src | tar -xC " ++
        tmp_dir r c ++ " --strip 1")) := by
  refine ⟨rfl, ?_, ?_, ?_⟩ <;> simp [deploy_split]

/-- C5: after the code-transfer synchronization, every remote file is either
present in the local snapshot or matches one of the exclude patterns of the
deploy task (compiled pyc artifacts, the env directory, coverage output,
style files and the bower component cache): remote is contained in local
union excluded. -/
theorem C5_sync_subset (localFiles remoteFiles : List String) (f : String)
    (h : f ∈ rsync_result localFiles remoteFiles (matchesExclude deploy_exclude)) :
    (f ∈ localFiles ∨ matchesExclude deploy_exclude f = true) ∧
    deploy_exclude = ["*.pyc", "env/", "cover/", "*.style", "bower_components"] := by
  refine ⟨?_, rfl⟩
  simp only [rsync_result] at h
  rcases List.mem_append.1 h with h1 | h2
  · exact Or.inl (List.mem_filter.1 h1).1
  · exact Or.inr (by simpa using (List.mem_filter.1 h2).2)

/-- C5 witness: a concrete synchronization of one local page against a
remote directory holding a stale compiled artifact. -/
theorem C5_witness :
    "index.html" ∈ rsync_result ["index.html"] ["old.pyc"]
      (matchesExclude deploy_exclude) ∧
    (("index.html" ∈ ["index.html"] ∨
      matchesExclude deploy_exclude "index.html" = true) ∧
     deploy_exclude = ["*.pyc", "env/", "cover/", "*.style", "bower_components"]) :=
  ⟨by decide, C5_sync_subset ["index.html"] ["old.pyc"] "index.html" (by decide)⟩

/-- C6: the maintenance toggle is idempotent on the remote maintenance
directory content: applying the on transition twice yields the same
populated state as applying it once (both equal the local maintenance page
content), and applying the off transition to an already-empty directory
leaves it empty. -/
theorem C6_maintenance_idempotent (lm d : List String) :
    maintenance_effect lm "on" (maintenance_effect lm "on" d) =
      maintenance_effect lm "on" d ∧
    maintenance_effect lm "off" [] = [] := by
  have hon : boolean "on" = true := by decide
  have hoff : boolean "off" = false := by decide
  constructor
  · simp [maintenance_effect, rsync_result, hon]
  · simp [maintenance_effect, hoff]

/-- C7: for every falsy state token, the maintenance task issues exactly the
recursive delete command in the remote maintenance directory — regardless of
the current directory content, so also when it is already empty — and the
resulting directory content is empty. -/
theorem C7_falsy_state_deletes (cfg : Config) (lm d : List String) (state : String)
    (h : boolean state = false) :
    maintenance cfg state = [Step.remoteRun "rm -rf ./*"] ∧
    maintenance_effect lm state d = [] := by
  constructor
  · simp [maintenance, h]
  · simp [maintenance_effect, h]

/-- C7 witness: the off token on an already-empty directory. -/
theorem C7_witness :
    boolean "off" = false ∧
    (maintenance cfgDemo "off" = [Step.remoteRun "rm -rf ./*"] ∧
     maintenance_effect [] "off" [] = []) :=
  ⟨by decide, C7_falsy_state_deletes cfgDemo [] [] "off" (by decide)⟩

/-- C8, counterexample: the claim states that the bower install step of the
deploy pipeline runs only when the bower capability flag is enabled.  In
project_conf the flag is disabled, yet the deploy trace contains the bower
install command at position 11. -/
theorem C8_counterexample :
    project_conf.bower = false ∧
    deployDemo.get? 11 = some (Step.remoteRun "bower install") := by
  refine ⟨rfl, by decide⟩

/-- C8, amended: the gating by the bower capability flag applies to the
bootstrap task, whose trace contains the bower install command exactly when
the flag is enabled; the deploy pipeline runs the bower install step
unconditionally, at position 11 of its trace for every configuration. -/
theorem C8_bower_gating (conf : ProjectConf) (cfg : Config) (gr r c b : String)
    (u : PyVal) :
    ((Step.remoteRun "bower install") ∈ bootstrap conf ↔ conf.bower = true) ∧
    (deploy cfg gr r c b u).get? 11 = some (Step.remoteRun "bower install") := by
  constructor
  · cases hb : conf.bower <;> simp [bootstrap, hb, migrate_cmd]
  · simp [deploy_split]

/-- C9: the successful demo run — reference v1.2.0 resolving to commit
abc1234 on branch main, hosts [host1], no upgrade — creates the snapshot
directory /tmp/blob-luke-abc1234/, uploads it to the configured site
directory, installs requirements with pip without the upgrade option, runs
the migration, restarts the worker group luke-celeryd, registers commit
abc1234 on branch main, removes the temporary directory, and the run
completes successfully (every action issued, completion flag true). -/
theorem C9_scenario :
    cfgDemo.hosts = ["host1"] ∧
    deployDemo.get? 4 = some (Step.localRun "mkdir /tmp/blob-luke-abc1234/") ∧
    deployDemo.get? 8 =
      some (Step.rsync "/tmp/blob-luke-abc1234/" "/srv/luke/site" true deploy_exclude) ∧
    deployDemo.get? 9 =
      some (Step.remoteRun "pip install -r /srv/luke/site/requirements/production.txt") ∧
    deployDemo.get? 10 = some (Step.remoteRun "python manage.py migrate --noinput") ∧
    deployDemo.get? 16 =
      some (Step.remoteRun "sudo /usr/bin/supervisorctl restart luke-celeryd") ∧
    deployDemo.get? 17 =
      some (Step.remoteRun ("opbeat -o $OPBEAT_ORGANIZATION_ID " ++
        "-a $OPBEAT_APP_ID " ++
        "-t $OPBEAT_SECRET_TOKEN deployment " ++
        "--component path:. vcs:git rev:abc1234 branch:main ")) ∧
    deployDemo.get? 19 = some (Step.localRun "rm -fr /tmp/blob-luke-abc1234/") ∧
    execute (fun _ => true) deployDemo = (deployDemo, true) := by
  refine ⟨rfl, by decide, by decide, by decide, by decide, by decide, by decide,
    by decide, execute_all_ok deployDemo⟩

/-- C10: the upgrade flag is tested by raw Python truthiness, not by the
boolean-token parser used for the maintenance state: every non-empty string
value of upgrade — including the string False as produced by the command
line — makes install_requirements run pip with the upgrade option, while the
boolean false and the empty string run pip without it; the token parser, by
contrast, maps the string False to false. -/
theorem C10_upgrade_truthiness (cfg : Config) (s : String) (h : s ≠ "") :
    install_requirements_cmd cfg (.str s) =
      "pip install -Ur " ++ requirements_path cfg ∧
    install_requirements_cmd cfg (.bool false) =
      "pip install -r " ++ requirements_path cfg ∧
    install_requirements_cmd cfg (.str "") =
      "pip install -r " ++ requirements_path cfg ∧
    truthy (.str "False") = true ∧
    boolean "False" = false := by
  refine ⟨?_, ?_, ?_, by decide, by decide⟩
  · have ht : truthy (.str s) = true := by simp [truthy, h]
    simp [install_requirements_cmd, ht]
  · simp [install_requirements_cmd, truthy]
  · simp [install_requirements_cmd, truthy]

/-- C10 witness: the string False, as delivered by the command-line form of
the upgrade argument, is non-empty and therefore selects the pip upgrade
option. -/
theorem C10_witness :
    ("False" : String) ≠ "" ∧
    (install_requirements_cmd cfgDemo (.str "False") =
       "pip install -Ur " ++ requirements_path cfgDemo ∧
     install_requirements_cmd cfgDemo (.bool false) =
       "pip install -r " ++ requirements_path cfgDemo ∧
     install_requirements_cmd cfgDemo (.str "") =
       "pip install -r " ++ requirements_path cfgDemo ∧
     truthy (.str "False") = true ∧
     boolean "False" = false) :=
  ⟨by decide, C10_upgrade_truthiness cfgDemo "False" (by decide)⟩

end Fabfile
